import Mathlib

/-!
# Verification of the self-correcting-agent streaming backend

Shallow embedding of `src/backend/azure_client.py` and `src/backend/main.py`:
the event normalizer `process_stream_event`, the session orchestrator
`stream_agent_response` (a Python generator, embedded as a function from the
observable behaviour of the upstream service to the sequence of yielded
events), and the thread/queue streaming bridge of `event_generator`.

Python attribute access is modelled explicitly: `getattr(x, f, d)` on an
optional field is `Option.getD`, while a bare `x.f` on a possibly-absent
field is strict and raises `AttributeError` (the `Except` error case).
-/

namespace SelfCorrecting

/-- JSON values, as produced for the `data` payloads of outward events. -/
inductive Json where
  | str : String → Json
  | num : Int → Json
  | null : Json
  | obj : List (String × Json) → Json
deriving Repr

mutual

/-- Encoding of a JSON value, mirroring `json.dumps` (default separators)
on the payloads this backend produces. -/
def encJson : Json → String
  | .str s => "\"" ++ s ++ "\""
  | .num n => toString n
  | .null => "null"
  | .obj fs => "\x7b" ++ encFields fs ++ "\x7d"

/-- Comma-separated field list of a JSON object. -/
def encFields : List (String × Json) → String
  | [] => ""
  | [p] => encPair p
  | p :: rest => encPair p ++ ", " ++ encFields rest

/-- One `"key": value` pair. -/
def encPair : String × Json → String
  | (k, v) => "\"" ++ k ++ "\": " ++ encJson v

end

/-- The `item` sub-record carried by output-item events.  Every field may be
absent (`getattr` with default in the source). -/
structure Item where
  type : Option String
  action_id : Option String
  status : Option String
  previous_action_id : Option String
  role : Option String
  id : Option String
deriving Repr

/-- The `usage` sub-record of a completed response. -/
structure Usage where
  input_tokens : Option Int
  output_tokens : Option Int
deriving Repr

/-- The `response` sub-record of response-lifecycle events.  `id` is read
with a bare attribute access in the source, so it may be absent here and its
absence raises there; `usage` is guarded by `hasattr` + truthiness. -/
structure Response where
  id : Option String
  usage : Option Usage
deriving Repr

/-- The `part` sub-record of content-part events. -/
structure Part where
  type : Option String
deriving Repr

/-- A raw upstream stream event.  `type` is the kind discriminator (the
string value of `ResponseStreamEventType` or any other string); all payload
fields are optional.  `strval` is the result of `str(event)`, used by the
explicit-error branch. -/
structure RawEvent where
  type : String
  text : Option String
  delta : Option String
  item : Option Item
  response : Option Response
  error : Option String
  part : Option Part
  content_index : Option Int
  strval : String
deriving Repr

/-- An outward SSE event dictionary: `event` name plus `data` payload. -/
structure SSEEvent where
  event : String
  data : Json
deriving Repr

/-! String values of the `ResponseStreamEventType` enum members used by the
source. -/

def RESPONSE_OUTPUT_TEXT_DONE : String := "response.output_text.done"
def RESPONSE_OUTPUT_TEXT_DELTA : String := "response.output_text.delta"
def RESPONSE_OUTPUT_ITEM_ADDED : String := "response.output_item.added"
def RESPONSE_OUTPUT_ITEM_DONE : String := "response.output_item.done"
def RESPONSE_CREATED : String := "response.created"
def RESPONSE_IN_PROGRESS : String := "response.in_progress"
def RESPONSE_COMPLETED : String := "response.completed"
def RESPONSE_FAILED : String := "response.failed"
def CONTENT_PART_ADDED : String := "response.content_part.added"
def CONTENT_PART_DONE : String := "response.content_part.done"
def ERROR_EVENT : String := "error"

/-- The event kinds `process_stream_event` dispatches on explicitly. -/
def knownKinds : List String :=
  [RESPONSE_OUTPUT_TEXT_DONE, RESPONSE_OUTPUT_TEXT_DELTA,
   RESPONSE_OUTPUT_ITEM_ADDED, RESPONSE_OUTPUT_ITEM_DONE,
   RESPONSE_CREATED, RESPONSE_IN_PROGRESS, RESPONSE_COMPLETED,
   RESPONSE_FAILED, CONTENT_PART_ADDED, CONTENT_PART_DONE, ERROR_EVENT]

/-- `previous_action_id` is forwarded as-is: a string or JSON null. -/
def optJson : Option String → Json
  | some s => .str s
  | none => .null

/-- Embedding of `process_stream_event` (azure_client.py, lines 73-230).
Returns `.ok (some e)` when an outward event is returned, `.ok none` when
the function falls through returning `None`, and `.error m` when the Python
code would raise (bare attribute access on an absent field). -/
def process_stream_event (event : RawEvent) : Except String (Option SSEEvent) :=
  if event.type = RESPONSE_OUTPUT_TEXT_DONE then
    match event.text with
    | none => .error "AttributeError: text"
    | some t => .ok (some ⟨"text_done", .obj [("text", .str t)]⟩)
  else if event.type = RESPONSE_OUTPUT_TEXT_DELTA then
    match event.delta with
    | none => .error "AttributeError: delta"
    | some d => .ok (some ⟨"text_delta", .obj [("delta", .str d)]⟩)
  else if event.type = RESPONSE_OUTPUT_ITEM_ADDED then
    match event.item with
    | none => .ok none
    | some item =>
      let item_type := item.type.getD "unknown"
      if item_type = "workflow_action" then
        .ok (some ⟨"action_started", .obj
          [("action_id", .str (item.action_id.getD "unknown")),
           ("status", .str (item.status.getD "unknown")),
           ("previous_action_id", optJson item.previous_action_id)]⟩)
      else if item_type = "message" then
        .ok (some ⟨"message_started", .obj
          [("role", .str (item.role.getD "unknown")),
           ("id", .str (item.id.getD "N/A"))]⟩)
      else
        .ok (some ⟨"item_added", .obj [("type", .str item_type)]⟩)
  else if event.type = RESPONSE_OUTPUT_ITEM_DONE then
    match event.item with
    | none => .ok none
    | some item =>
      let item_type := item.type.getD "unknown"
      if item_type = "workflow_action" then
        .ok (some ⟨"action_completed", .obj
          [("action_id", .str (item.action_id.getD "unknown")),
           ("status", .str (item.status.getD "unknown")),
           ("previous_action_id", optJson item.previous_action_id)]⟩)
      else if item_type = "message" then
        .ok (some ⟨"message_done", .obj
          [("role", .str (item.role.getD "unknown")),
           ("id", .str (item.id.getD "N/A"))]⟩)
      else
        .ok (some ⟨"item_done", .obj [("type", .str item_type)]⟩)
  else if event.type = RESPONSE_CREATED then
    match event.response with
    | none => .error "AttributeError: response"
    | some resp =>
      match resp.id with
      | none => .error "AttributeError: id"
      | some rid => .ok (some ⟨"response_status", .obj
          [("status", .str "created"), ("response_id", .str rid)]⟩)
  else if event.type = RESPONSE_IN_PROGRESS then
    .ok (some ⟨"response_status", .obj [("status", .str "in_progress")]⟩)
  else if event.type = RESPONSE_COMPLETED then
    match event.response with
    | none => .error "AttributeError: response"
    | some resp =>
      let usage_data : Json :=
        match resp.usage with
        | some usage => .obj
            [("input_tokens", .num (usage.input_tokens.getD 0)),
             ("output_tokens", .num (usage.output_tokens.getD 0))]
        | none => .obj []
      .ok (some ⟨"response_status", .obj
        [("status", .str "completed"), ("usage", usage_data)]⟩)
  else if event.type = RESPONSE_FAILED then
    let error_msg := event.error.getD ""
    .ok (some ⟨"response_status", .obj
      [("status", .str "failed"), ("error", .str error_msg)]⟩)
  else if event.type = CONTENT_PART_ADDED then
    let part_type := match event.part with
      | some p => p.type.getD "unknown"
      | none => "unknown"
    .ok (some ⟨"content_part_added", .obj
      [("type", .str part_type),
       ("content_index", .num (event.content_index.getD 0))]⟩)
  else if event.type = CONTENT_PART_DONE then
    let part_type := match event.part with
      | some p => p.type.getD "unknown"
      | none => "unknown"
    .ok (some ⟨"content_part_done", .obj
      [("type", .str part_type),
       ("content_index", .num (event.content_index.getD 0))]⟩)
  else if event.type = ERROR_EVENT then
    .ok (some ⟨"error", .obj [("message", .str event.strval)]⟩)
  else
    .ok (some ⟨"unknown", .obj [("type", .str event.type)]⟩)

/-- A raw event with every optional field absent, of the given kind. -/
def bareEvent (kind : String) : RawEvent :=
  ⟨kind, none, none, none, none, none, none, none, ""⟩

/-! ## Session orchestrator (`stream_agent_response`, azure_client.py 25-70)

The generator is embedded as a function of the observable behaviour of the
remote service for this request: whether `conversations.create` succeeds,
the raw events the response stream yields before ending or raising, and
whether `conversations.delete` succeeds.  Exceptions are modelled as their
message strings. -/

/-- A remote conversation (opaque id). -/
structure Conversation where
  id : String
deriving Repr

/-- Behaviour of the remote service during one request.  `streamError`, when
present, is the exception raised by `responses.create` or by iterating the
stream after `streamEvents` have been yielded. -/
structure Upstream where
  createResult : Except String Conversation
  streamEvents : List RawEvent
  streamError : Option String
  deleteResult : Except String Unit
deriving Repr

/-- The `error` outward event built from an exception message
(`str(e)`). -/
def errorEvent (msg : String) : SSEEvent :=
  ⟨"error", .obj [("message", .str msg)]⟩

/-- The `conversation_created` outward event. -/
def conversationCreatedEvent (c : Conversation) : SSEEvent :=
  ⟨"conversation_created", .obj [("conversation_id", .str c.id)]⟩

/-- The `conversation_deleted` outward event. -/
def conversationDeletedEvent (c : Conversation) : SSEEvent :=
  ⟨"conversation_deleted", .obj [("conversation_id", .str c.id)]⟩

/-- The `for event in stream` loop body (azure_client.py 51-54): normalize
each raw event and yield the non-null results.  When `process_stream_event`
raises, the loop aborts there: events already yielded are kept, the rest of
the list is not consumed, and the exception message is returned. -/
def consumeStream : List RawEvent → List SSEEvent × Option String
  | [] => ([], none)
  | e :: rest =>
    match process_stream_event e with
    | .error msg => ([], some msg)
    | .ok none => consumeStream rest
    | .ok (some s) => (s :: (consumeStream rest).1, (consumeStream rest).2)

/-- Result of running the `stream_agent_response` generator to the end:
the events it yielded, the exception it propagated to its caller (if any),
and how many times `conversations.delete` was called. -/
structure GenResult where
  events : List SSEEvent
  raised : Option String
  deleteAttempts : Nat
deriving Repr

/-- Embedding of `stream_agent_response` (azure_client.py 25-70).  If
creation fails the exception propagates before anything is yielded.
Otherwise `conversation_created` is yielded; any exception from the
try-block (stream creation/iteration or a raising normalizer) yields one
`error` event; the finally-block always attempts deletion once, yielding
`conversation_deleted` on success and swallowing any failure. -/
def stream_agent_response (query : String) (env : Upstream) : GenResult :=
  let _ := query
  match env.createResult with
  | .error e => ⟨[], some e, 0⟩
  | .ok conversation =>
    let (streamed, normErr) := consumeStream env.streamEvents
    let exc : Option String :=
      match normErr with
      | some m => some m
      | none => env.streamError
    let errEvts : List SSEEvent :=
      match exc with
      | some m => [errorEvent m]
      | none => []
    let delEvts : List SSEEvent :=
      match env.deleteResult with
      | .ok _ => [conversationDeletedEvent conversation]
      | .error _ => []
    ⟨conversationCreatedEvent conversation :: (streamed ++ errEvts ++ delEvts),
     none, 1⟩

/-! ## Streaming bridge and transport (`main.py` 32-76) -/

/-- An item placed on the bridge's queue: an outward event, or the `None`
completion sentinel. -/
inductive QueueItem where
  | event : SSEEvent → QueueItem
  | sentinel : QueueItem
deriving Repr

/-- Embedding of `run_sync_generator` (main.py 39-47): the worker thread
drains the generator into the FIFO queue; if the generator raises, one
`error` event is queued; either way a single sentinel follows. -/
def run_sync_generator (query : String) (env : Upstream) : List QueueItem :=
  let r := stream_agent_response query env
  r.events.map QueueItem.event ++
    (match r.raised with
     | some e => [QueueItem.event (errorEvent e)]
     | none => []) ++ [QueueItem.sentinel]

/-- The consumer loop of `event_generator` (main.py 55-69): pop queue items
in order until the sentinel. -/
def drainQueue : List QueueItem → List SSEEvent
  | [] => []
  | QueueItem.sentinel :: _ => []
  | QueueItem.event e :: rest => e :: drainQueue rest

/-- Wire framing of one outward event (main.py 67-69):
`event: <name>\ndata: <json payload>\n\n`. -/
def serializeFrame (e : SSEEvent) : String :=
  "event: " ++ e.event ++ "\ndata: " ++ encJson e.data ++ "\n\n"

/-- The terminal frame (main.py 76). -/
def doneFrame : String := "event: done\ndata: \x7b\x7d\n\n"

/-- Embedding of `event_generator` (main.py 32-76): serialize each queued
event in arrival order, then send the terminal frame. -/
def event_generator (query : String) (env : Upstream) : List String :=
  (drainQueue (run_sync_generator query env)).map serializeFrame ++ [doneFrame]

/-! ## Derived vocabulary used by the statements -/

/-- The outward event names `process_stream_event` can return. -/
def normalizerNames : List String :=
  ["text_done", "text_delta", "action_started", "message_started", "item_added",
   "action_completed", "message_done", "item_done", "response_status",
   "content_part_added", "content_part_done", "error", "unknown"]

/-- Every outward event name the backend can place on the queue. -/
def allNames : List String :=
  "conversation_created" :: "conversation_deleted" :: normalizerNames

/-- The extra `error` event the bridge enqueues when the generator raises
(main.py 45-46). -/
def raisedEvents : Option String → List SSEEvent
  | some m => [errorEvent m]
  | none => []

/-- Whether a modelled Python call returned normally (did not raise). -/
def isOk : Except String α → Bool
  | .ok _ => true
  | .error _ => false

/-! ## Helper lemmas -/

/-- Every outward event returned by the normalizer carries one of the
thirteen normalizer names. -/
lemma pse_names (ev : RawEvent) (s : SSEEvent)
    (h : process_stream_event ev = .ok (some s)) : s.event ∈ normalizerNames := by
  unfold process_stream_event at h
  by_cases h1 : ev.type = RESPONSE_OUTPUT_TEXT_DONE
  · rw [if_pos h1] at h
    cases hx : ev.text <;> rw [hx] at h <;> simp at h
    subst h; simp [normalizerNames]
  rw [if_neg h1] at h
  by_cases h2 : ev.type = RESPONSE_OUTPUT_TEXT_DELTA
  · rw [if_pos h2] at h
    cases hx : ev.delta <;> rw [hx] at h <;> simp at h
    subst h; simp [normalizerNames]
  rw [if_neg h2] at h
  by_cases h3 : ev.type = RESPONSE_OUTPUT_ITEM_ADDED
  · rw [if_pos h3] at h
    cases hx : ev.item with
    | none => rw [hx] at h; simp at h
    | some item =>
      rw [hx] at h
      dsimp only at h
      by_cases ht : item.type.getD "unknown" = "workflow_action"
      · rw [if_pos ht] at h; simp at h; subst h; simp [normalizerNames]
      rw [if_neg ht] at h
      by_cases hm : item.type.getD "unknown" = "message"
      · rw [if_pos hm] at h; simp at h; subst h; simp [normalizerNames]
      · rw [if_neg hm] at h; simp at h; subst h; simp [normalizerNames]
  rw [if_neg h3] at h
  by_cases h4 : ev.type = RESPONSE_OUTPUT_ITEM_DONE
  · rw [if_pos h4] at h
    cases hx : ev.item with
    | none => rw [hx] at h; simp at h
    | some item =>
      rw [hx] at h
      dsimp only at h
      by_cases ht : item.type.getD "unknown" = "workflow_action"
      · rw [if_pos ht] at h; simp at h; subst h; simp [normalizerNames]
      rw [if_neg ht] at h
      by_cases hm : item.type.getD "unknown" = "message"
      · rw [if_pos hm] at h; simp at h; subst h; simp [normalizerNames]
      · rw [if_neg hm] at h; simp at h; subst h; simp [normalizerNames]
  rw [if_neg h4] at h
  by_cases h5 : ev.type = RESPONSE_CREATED
  · rw [if_pos h5] at h
    cases hx : ev.response with
    | none => rw [hx] at h; simp at h
    | some r =>
      rw [hx] at h
      dsimp only at h
      cases hid : r.id <;> rw [hid] at h <;> simp at h
      subst h; simp [normalizerNames]
  rw [if_neg h5] at h
  by_cases h6 : ev.type = RESPONSE_IN_PROGRESS
  · rw [if_pos h6] at h; simp at h; subst h; simp [normalizerNames]
  rw [if_neg h6] at h
  by_cases h7 : ev.type = RESPONSE_COMPLETED
  · rw [if_pos h7] at h
    cases hx : ev.response <;> rw [hx] at h <;> simp at h
    subst h; simp [normalizerNames]
  rw [if_neg h7] at h
  by_cases h8 : ev.type = RESPONSE_FAILED
  · rw [if_pos h8] at h; simp at h; subst h; simp [normalizerNames]
  rw [if_neg h8] at h
  by_cases h9 : ev.type = CONTENT_PART_ADDED
  · rw [if_pos h9] at h; simp at h; subst h; simp [normalizerNames]
  rw [if_neg h9] at h
  by_cases h10 : ev.type = CONTENT_PART_DONE
  · rw [if_pos h10] at h; simp at h; subst h; simp [normalizerNames]
  rw [if_neg h10] at h
  by_cases h11 : ev.type = ERROR_EVENT
  · rw [if_pos h11] at h; simp at h; subst h; simp [normalizerNames]
  · rw [if_neg h11] at h; simp at h; subst h; simp [normalizerNames]

/-- Every event yielded by the streaming loop carries a normalizer name. -/
lemma consumeStream_names (l : List RawEvent) :
    ∀ s ∈ (consumeStream l).1, s.event ∈ normalizerNames := by
  induction l with
  | nil => simp [consumeStream]
  | cons e rest ih =>
    intro s hs
    unfold consumeStream at hs
    cases hp : process_stream_event e with
    | error m => rw [hp] at hs; simp at hs
    | ok o =>
      cases o with
      | none => rw [hp] at hs; exact ih s hs
      | some t =>
        rw [hp] at hs
        dsimp only at hs
        rcases List.mem_cons.mp hs with hst | hst
        · subst hst; exact pse_names e _ hp
        · exact ih s hst

/-- Every event yielded by the orchestrator carries a backend name. -/
lemma events_names (q : String) (env : Upstream) :
    ∀ s ∈ (stream_agent_response q env).events, s.event ∈ allNames := by
  intro s hs
  unfold stream_agent_response at hs
  cases hc : env.createResult with
  | error e => rw [hc] at hs; simp at hs
  | ok conversation =>
    rw [hc] at hs
    simp only [List.mem_cons, List.mem_append] at hs
    rcases hs with hs | (hs | hs) | hs
    · subst hs; simp [conversationCreatedEvent, allNames]
    · exact List.mem_cons_of_mem _ (List.mem_cons_of_mem _
        (consumeStream_names env.streamEvents s hs))
    · have : s.event = "error" := by
        rcases hm : (match (consumeStream env.streamEvents).2 with
          | some m => some m
          | none => env.streamError) with _ | m
        all_goals rw [hm] at hs
        · simp at hs
        · simp at hs; subst hs; rfl
      rw [this]; simp [allNames, normalizerNames]
    · have : s.event = "conversation_deleted" := by
        rcases hd : env.deleteResult with e | u
        all_goals rw [hd] at hs
        · simp at hs
        · simp at hs; subst hs; rfl
      rw [this]; simp [allNames]

/-- Draining the queue recovers exactly the enqueued events, in order. -/
lemma drainQueue_append (xs : List SSEEvent) (rest : List QueueItem) :
    drainQueue (xs.map QueueItem.event ++ QueueItem.sentinel :: rest) = xs := by
  induction xs with
  | nil => simp [drainQueue]
  | cons x xs ih => simp [drainQueue, ih]

/-- What the worker thread enqueues: the generator's events, the bridge's
own error event if the generator raised, then the completion sentinel. -/
lemma run_sync_generator_eq (q : String) (env : Upstream) :
    run_sync_generator q env =
      ((stream_agent_response q env).events ++
        raisedEvents (stream_agent_response q env).raised).map QueueItem.event
        ++ [QueueItem.sentinel] := by
  unfold run_sync_generator
  cases hr : (stream_agent_response q env).raised <;>
    simp [raisedEvents, hr]

/-- What the consumer loop delivers before the terminal frame. -/
lemma drain_run_sync (q : String) (env : Upstream) :
    drainQueue (run_sync_generator q env) =
      (stream_agent_response q env).events ++
        raisedEvents (stream_agent_response q env).raised := by
  rw [run_sync_generator_eq]
  exact drainQueue_append _ []

/-- Every event the bridge delivers carries a backend name. -/
lemma drained_names (q : String) (env : Upstream) :
    ∀ s ∈ drainQueue (run_sync_generator q env), s.event ∈ allNames := by
  intro s hs
  rw [drain_run_sync] at hs
  rcases List.mem_append.mp hs with hs | hs
  · exact events_names q env s hs
  · cases hr : (stream_agent_response q env).raised with
    | none => rw [hr] at hs; simp [raisedEvents] at hs
    | some m =>
      rw [hr] at hs
      simp [raisedEvents] at hs
      subst hs; simp [errorEvent, allNames, normalizerNames]

end SelfCorrecting

namespace SelfCorrecting

/-! ## Claim theorems -/

/-- C2: for every request, the delete-conversation call is attempted
exactly once when the create-conversation call succeeds (whatever the
stream did), and never when creation fails. -/
theorem cleanup_guarantee (q : String) (env : Upstream) :
    (stream_agent_response q env).deleteAttempts =
      match env.createResult with
      | .ok _ => 1
      | .error _ => 0 := by
  obtain ⟨cr, se, serr, dr⟩ := env
  cases cr <;> rfl

/-- C9: when the create-conversation call fails, the wire stream is exactly
one `error` frame carrying the exception's description followed by the
terminal frame (so no `conversation_created`, no `conversation_deleted`),
and no deletion is attempted. -/
theorem creation_failure_stream (q : String) (env : Upstream) (e : String)
    (h : env.createResult = .error e) :
    event_generator q env = [serializeFrame (errorEvent e), doneFrame] ∧
    (stream_agent_response q env).events = [] ∧
    (stream_agent_response q env).deleteAttempts = 0 := by
  have hr : stream_agent_response q env = ⟨[], some e, 0⟩ := by
    unfold stream_agent_response; rw [h]
  refine ⟨?_, by rw [hr], by rw [hr]⟩
  unfold event_generator
  rw [drain_run_sync, hr]
  simp [raisedEvents]

/-- Witness for C9 at a concrete failing creation. -/
theorem creation_failure_stream_witness :
    event_generator "q" ⟨.error "boom", [], none, .ok ()⟩ =
      [serializeFrame (errorEvent "boom"), doneFrame] ∧
    (stream_agent_response "q" ⟨.error "boom", [], none, .ok ()⟩).events = [] ∧
    (stream_agent_response "q" ⟨.error "boom", [], none, .ok ()⟩).deleteAttempts = 0 :=
  creation_failure_stream "q" ⟨.error "boom", [], none, .ok ()⟩ "boom" rfl

/-- C6: an item-added or item-done raw event carrying no item sub-record
produces no outward event at all: the normalizer returns `None`. -/
theorem null_item_suppression (ev : RawEvent)
    (h : ev.type = RESPONSE_OUTPUT_ITEM_ADDED ∨ ev.type = RESPONSE_OUTPUT_ITEM_DONE)
    (hi : ev.item = none) : process_stream_event ev = .ok none := by
  rcases h with h | h <;>
    simp [process_stream_event, h, hi, RESPONSE_OUTPUT_ITEM_ADDED, RESPONSE_OUTPUT_ITEM_DONE,
      RESPONSE_OUTPUT_TEXT_DONE, RESPONSE_OUTPUT_TEXT_DELTA]

/-- Witness for C6 at a concrete item-added event with no item. -/
theorem null_item_suppression_witness :
    ((bareEvent RESPONSE_OUTPUT_ITEM_ADDED).type = RESPONSE_OUTPUT_ITEM_ADDED ∨
      (bareEvent RESPONSE_OUTPUT_ITEM_ADDED).type = RESPONSE_OUTPUT_ITEM_DONE) ∧
    (bareEvent RESPONSE_OUTPUT_ITEM_ADDED).item = none ∧
    process_stream_event (bareEvent RESPONSE_OUTPUT_ITEM_ADDED) = .ok none :=
  ⟨Or.inl rfl, rfl, null_item_suppression _ (Or.inl rfl) rfl⟩

/-- C7: a raw event whose kind is outside the known mapping normalizes to
the `unknown` outward event carrying the kind string, and never raises. -/
theorem unknown_kind_safety (ev : RawEvent) (h : ev.type ∉ knownKinds) :
    process_stream_event ev =
      .ok (some ⟨"unknown", .obj [("type", .str ev.type)]⟩) := by
  simp only [knownKinds, List.mem_cons, List.not_mem_nil, or_false, not_or] at h
  obtain ⟨h1, h2, h3, h4, h5, h6, h7, h8, h9, h10, h11⟩ := h
  unfold process_stream_event
  rw [if_neg h1, if_neg h2, if_neg h3, if_neg h4, if_neg h5, if_neg h6, if_neg h7,
    if_neg h8, if_neg h9, if_neg h10, if_neg h11]

/-- Witness for C7 at a concrete unrecognized kind. -/
theorem unknown_kind_safety_witness :
    ("response.future_thing" : String) ∉ knownKinds ∧
    process_stream_event (bareEvent "response.future_thing") =
      .ok (some ⟨"unknown", .obj [("type", .str "response.future_thing")]⟩) :=
  ⟨by decide, unknown_kind_safety (bareEvent "response.future_thing") (by decide)⟩

end SelfCorrecting

namespace SelfCorrecting

/-- C3 counterexample: a text-done event (a known kind) whose `text` field
is absent makes `process_stream_event` raise `AttributeError` instead of
degrading to a default. -/
theorem never_raises_counterexample :
    (bareEvent RESPONSE_OUTPUT_TEXT_DONE).type ∈ knownKinds ∧
    (bareEvent RESPONSE_OUTPUT_TEXT_DONE).text = none ∧
    process_stream_event (bareEvent RESPONSE_OUTPUT_TEXT_DONE) =
      .error "AttributeError: text" :=
  ⟨by decide, rfl, rfl⟩

/-- C3 (amended): for a raw event of known kind, the normalizer returns
normally if and only if its strictly-read fields are present: the `text` of
a text-done event, the `delta` of a text-delta event, the `response` and its
`id` for a response-created event, and the `response` of a
response-completed event.  Every other field lookup degrades to a default
and can never make it raise. -/
theorem never_raises_amended (ev : RawEvent) (h : ev.type ∈ knownKinds) :
    isOk (process_stream_event ev) = true ↔
      ((ev.type = RESPONSE_OUTPUT_TEXT_DONE → ev.text.isSome = true) ∧
       (ev.type = RESPONSE_OUTPUT_TEXT_DELTA → ev.delta.isSome = true) ∧
       (ev.type = RESPONSE_CREATED → (ev.response.bind Response.id).isSome = true) ∧
       (ev.type = RESPONSE_COMPLETED → ev.response.isSome = true)) := by
  simp only [knownKinds, List.mem_cons, List.not_mem_nil, or_false] at h
  rcases h with h | h | h | h | h | h | h | h | h | h | h
  · cases hx : ev.text <;>
      simp [process_stream_event, isOk, h, hx, RESPONSE_OUTPUT_TEXT_DONE,
        RESPONSE_OUTPUT_TEXT_DELTA, RESPONSE_CREATED, RESPONSE_COMPLETED]
  · cases hx : ev.delta <;>
      simp [process_stream_event, isOk, h, hx, RESPONSE_OUTPUT_TEXT_DONE,
        RESPONSE_OUTPUT_TEXT_DELTA, RESPONSE_CREATED, RESPONSE_COMPLETED]
  · rcases hx : ev.item with _ | item
    · simp [process_stream_event, isOk, h, hx, RESPONSE_OUTPUT_TEXT_DONE,
        RESPONSE_OUTPUT_TEXT_DELTA, RESPONSE_OUTPUT_ITEM_ADDED, RESPONSE_CREATED,
        RESPONSE_COMPLETED]
    · simp only [process_stream_event, h, hx, RESPONSE_OUTPUT_TEXT_DONE,
        RESPONSE_OUTPUT_TEXT_DELTA, RESPONSE_OUTPUT_ITEM_ADDED, RESPONSE_CREATED,
        RESPONSE_COMPLETED, RESPONSE_IN_PROGRESS, RESPONSE_OUTPUT_ITEM_DONE,
        RESPONSE_FAILED, CONTENT_PART_ADDED, CONTENT_PART_DONE, ERROR_EVENT]
      split_ifs <;> simp_all [isOk]
  · rcases hx : ev.item with _ | item
    · simp [process_stream_event, isOk, h, hx, RESPONSE_OUTPUT_TEXT_DONE,
        RESPONSE_OUTPUT_TEXT_DELTA, RESPONSE_OUTPUT_ITEM_ADDED,
        RESPONSE_OUTPUT_ITEM_DONE, RESPONSE_CREATED, RESPONSE_COMPLETED]
    · simp only [process_stream_event, h, hx, RESPONSE_OUTPUT_TEXT_DONE,
        RESPONSE_OUTPUT_TEXT_DELTA, RESPONSE_OUTPUT_ITEM_ADDED, RESPONSE_CREATED,
        RESPONSE_COMPLETED, RESPONSE_IN_PROGRESS, RESPONSE_OUTPUT_ITEM_DONE,
        RESPONSE_FAILED, CONTENT_PART_ADDED, CONTENT_PART_DONE, ERROR_EVENT]
      split_ifs <;> simp_all [isOk]
  · rcases hx : ev.response with _ | r
    · simp [process_stream_event, isOk, h, hx, RESPONSE_OUTPUT_TEXT_DONE,
        RESPONSE_OUTPUT_TEXT_DELTA, RESPONSE_OUTPUT_ITEM_ADDED,
        RESPONSE_OUTPUT_ITEM_DONE, RESPONSE_CREATED, RESPONSE_COMPLETED]
    · cases hid : r.id <;>
        simp [process_stream_event, isOk, h, hx, hid, Option.bind,
          RESPONSE_OUTPUT_TEXT_DONE, RESPONSE_OUTPUT_TEXT_DELTA,
          RESPONSE_OUTPUT_ITEM_ADDED, RESPONSE_OUTPUT_ITEM_DONE, RESPONSE_CREATED,
          RESPONSE_COMPLETED]
  · simp [process_stream_event, isOk, h, RESPONSE_OUTPUT_TEXT_DONE,
      RESPONSE_OUTPUT_TEXT_DELTA, RESPONSE_OUTPUT_ITEM_ADDED,
      RESPONSE_OUTPUT_ITEM_DONE, RESPONSE_CREATED, RESPONSE_IN_PROGRESS,
      RESPONSE_COMPLETED]
  · rcases hx : ev.response with _ | r <;>
      simp [process_stream_event, isOk, h, hx, RESPONSE_OUTPUT_TEXT_DONE,
        RESPONSE_OUTPUT_TEXT_DELTA, RESPONSE_OUTPUT_ITEM_ADDED,
        RESPONSE_OUTPUT_ITEM_DONE, RESPONSE_CREATED, RESPONSE_IN_PROGRESS,
        RESPONSE_COMPLETED]
  · simp [process_stream_event, isOk, h, RESPONSE_OUTPUT_TEXT_DONE,
      RESPONSE_OUTPUT_TEXT_DELTA, RESPONSE_OUTPUT_ITEM_ADDED,
      RESPONSE_OUTPUT_ITEM_DONE, RESPONSE_CREATED, RESPONSE_IN_PROGRESS,
      RESPONSE_COMPLETED, RESPONSE_FAILED]
  · simp [process_stream_event, isOk, h, RESPONSE_OUTPUT_TEXT_DONE,
      RESPONSE_OUTPUT_TEXT_DELTA, RESPONSE_OUTPUT_ITEM_ADDED,
      RESPONSE_OUTPUT_ITEM_DONE, RESPONSE_CREATED, RESPONSE_IN_PROGRESS,
      RESPONSE_COMPLETED, RESPONSE_FAILED, CONTENT_PART_ADDED]
  · simp [process_stream_event, isOk, h, RESPONSE_OUTPUT_TEXT_DONE,
      RESPONSE_OUTPUT_TEXT_DELTA, RESPONSE_OUTPUT_ITEM_ADDED,
      RESPONSE_OUTPUT_ITEM_DONE, RESPONSE_CREATED, RESPONSE_IN_PROGRESS,
      RESPONSE_COMPLETED, RESPONSE_FAILED, CONTENT_PART_ADDED, CONTENT_PART_DONE]
  · simp [process_stream_event, isOk, h, RESPONSE_OUTPUT_TEXT_DONE,
      RESPONSE_OUTPUT_TEXT_DELTA, RESPONSE_OUTPUT_ITEM_ADDED,
      RESPONSE_OUTPUT_ITEM_DONE, RESPONSE_CREATED, RESPONSE_IN_PROGRESS,
      RESPONSE_COMPLETED, RESPONSE_FAILED, CONTENT_PART_ADDED, CONTENT_PART_DONE,
      ERROR_EVENT]

/-- Witness for the amended C3 at a concrete in-progress event. -/
theorem never_raises_amended_witness :
    (bareEvent RESPONSE_IN_PROGRESS).type ∈ knownKinds ∧
    (isOk (process_stream_event (bareEvent RESPONSE_IN_PROGRESS)) = true ↔
      (((bareEvent RESPONSE_IN_PROGRESS).type = RESPONSE_OUTPUT_TEXT_DONE →
          (bareEvent RESPONSE_IN_PROGRESS).text.isSome = true) ∧
       ((bareEvent RESPONSE_IN_PROGRESS).type = RESPONSE_OUTPUT_TEXT_DELTA →
          (bareEvent RESPONSE_IN_PROGRESS).delta.isSome = true) ∧
       ((bareEvent RESPONSE_IN_PROGRESS).type = RESPONSE_CREATED →
          ((bareEvent RESPONSE_IN_PROGRESS).response.bind Response.id).isSome = true) ∧
       ((bareEvent RESPONSE_IN_PROGRESS).type = RESPONSE_COMPLETED →
          (bareEvent RESPONSE_IN_PROGRESS).response.isSome = true))) :=
  ⟨by decide, never_raises_amended (bareEvent RESPONSE_IN_PROGRESS) (by decide)⟩

/-- C4 counterexample: a workflow-action item with no `action_id` field
normalizes with `action_id = "unknown"`, not `"N/A"` as claimed. -/
theorem default_substitution_counterexample :
    process_stream_event
        { bareEvent RESPONSE_OUTPUT_ITEM_ADDED with
          item := some ⟨some "workflow_action", none, none, none, none, none⟩ } =
      .ok (some ⟨"action_started", .obj
        [("action_id", .str "unknown"), ("status", .str "unknown"),
         ("previous_action_id", Json.null)]⟩) ∧
    ("unknown" : String) ≠ "N/A" :=
  ⟨rfl, by decide⟩

/-- C4 (amended): on item-added/done events carrying an item, a missing
`status` normalizes to `"unknown"`; for message items a missing `id`
normalizes to `"N/A"`; but for workflow-action items the missing `action_id`
normalizes to `"unknown"` (not `"N/A"`). -/
theorem default_substitution_amended (ev : RawEvent) (item : Item)
    (hk : ev.type = RESPONSE_OUTPUT_ITEM_ADDED ∨ ev.type = RESPONSE_OUTPUT_ITEM_DONE)
    (hi : ev.item = some item) :
    (item.type = some "workflow_action" →
      process_stream_event ev = .ok (some
        ⟨if ev.type = RESPONSE_OUTPUT_ITEM_ADDED then "action_started" else "action_completed",
         .obj [("action_id", .str (item.action_id.getD "unknown")),
               ("status", .str (item.status.getD "unknown")),
               ("previous_action_id", optJson item.previous_action_id)]⟩)) ∧
    (item.type = some "message" →
      process_stream_event ev = .ok (some
        ⟨if ev.type = RESPONSE_OUTPUT_ITEM_ADDED then "message_started" else "message_done",
         .obj [("role", .str (item.role.getD "unknown")),
               ("id", .str (item.id.getD "N/A"))]⟩)) := by
  rcases hk with h | h <;> constructor <;> intro ht <;>
    simp [process_stream_event, h, hi, ht, RESPONSE_OUTPUT_TEXT_DONE,
      RESPONSE_OUTPUT_TEXT_DELTA, RESPONSE_OUTPUT_ITEM_ADDED,
      RESPONSE_OUTPUT_ITEM_DONE]

/-- Witness for the amended C4: a message item-done event with an absent
role and a present id. -/
theorem default_substitution_amended_witness :
    process_stream_event
        { bareEvent RESPONSE_OUTPUT_ITEM_DONE with
          item := some ⟨some "message", none, none, none, none, some "m-1"⟩ } =
      .ok (some ⟨"message_done", .obj
        [("role", .str "unknown"), ("id", .str "m-1")]⟩) := by
  have h := default_substitution_amended
      { bareEvent RESPONSE_OUTPUT_ITEM_DONE with
        item := some ⟨some "message", none, none, none, none, some "m-1"⟩ }
      ⟨some "message", none, none, none, none, some "m-1"⟩ (Or.inr rfl) rfl
  exact h.2 rfl

/-- C10: a content-part added/done event with no part sub-record is not
suppressed: it still normalizes to `content_part_added`/`content_part_done`
with `type = "unknown"` and the content index defaulting to 0. -/
theorem content_part_no_part (ev : RawEvent) (hp : ev.part = none) :
    (ev.type = CONTENT_PART_ADDED →
      process_stream_event ev = .ok (some ⟨"content_part_added", .obj
        [("type", .str "unknown"),
         ("content_index", .num (ev.content_index.getD 0))]⟩)) ∧
    (ev.type = CONTENT_PART_DONE →
      process_stream_event ev = .ok (some ⟨"content_part_done", .obj
        [("type", .str "unknown"),
         ("content_index", .num (ev.content_index.getD 0))]⟩)) := by
  constructor <;> intro h <;>
    simp [process_stream_event, h, hp, RESPONSE_OUTPUT_TEXT_DONE,
      RESPONSE_OUTPUT_TEXT_DELTA, RESPONSE_OUTPUT_ITEM_ADDED,
      RESPONSE_OUTPUT_ITEM_DONE, RESPONSE_CREATED, RESPONSE_IN_PROGRESS,
      RESPONSE_COMPLETED, RESPONSE_FAILED, CONTENT_PART_ADDED, CONTENT_PART_DONE]

/-- Witness for C10: a bare content-part-added event (no part, no index)
emits `content_part_added` with type `"unknown"` and index 0. -/
theorem content_part_no_part_witness :
    (bareEvent CONTENT_PART_ADDED).part = none ∧
    process_stream_event (bareEvent CONTENT_PART_ADDED) =
      .ok (some ⟨"content_part_added", .obj
        [("type", .str "unknown"), ("content_index", .num 0)]⟩) :=
  ⟨rfl, (content_part_no_part (bareEvent CONTENT_PART_ADDED) rfl).1 rfl⟩

end SelfCorrecting

namespace SelfCorrecting

/-- A frame serialized for an event whose name does not start with `d` is
never the terminal frame. -/
lemma frame_ne_done (a b : String) (h : a.data.head? ≠ some 'd') :
    "event: " ++ a ++ "\ndata: " ++ b ++ "\n\n" ≠ doneFrame := by
  intro heq
  have h2 : ("event: " ++ a ++ "\ndata: " ++ b ++ "\n\n").data = doneFrame.data :=
    congrArg String.data heq
  simp only [String.data_append] at h2
  have hd : doneFrame.data =
      ['e','v','e','n','t',':',' ','d','o','n','e','\n','d','a','t','a',':',' ','\x7b','\x7d','\n','\n'] := rfl
  rw [hd] at h2
  simp only [List.append_assoc, List.cons_append, List.nil_append] at h2
  cases ha : a.data with
  | nil => rw [ha] at h2; simp at h2
  | cons c cs =>
    rw [ha] at h2
    simp only [List.cons_append, List.cons.injEq] at h2
    exact h (by rw [ha]; simp [h2.2.2.2.2.2.2.2.1])

/-- None of the backend's event names starts with `d`. -/
lemma name_head_ne_d (n : String) (h : n ∈ allNames) : n.data.head? ≠ some 'd' := by
  simp only [allNames, normalizerNames, List.mem_cons, List.not_mem_nil, or_false] at h
  rcases h with h | h | h | h | h | h | h | h | h | h | h | h | h | h | h <;>
    subst h <;> decide

/-- No serialized outward-event frame equals the terminal frame. -/
lemma serializeFrame_ne_done (s : SSEEvent) (h : s.event ∈ allNames) :
    serializeFrame s ≠ doneFrame := by
  unfold serializeFrame
  exact frame_ne_done s.event (encJson s.data) (name_head_ne_d s.event h)

/-- The terminal frame closes every response. -/
lemma event_generator_last (q : String) (env : Upstream) :
    (event_generator q env).getLast? = some doneFrame := by
  unfold event_generator
  simp

/-- C1: for every request, whatever the upstream behaviour (creation
success or failure, streaming success or failure, deletion success or
failure), the transport emits the terminal frame `event: done\ndata: \x7b\x7d\n\n`
exactly once, and it is the last frame of the response. -/
theorem terminal_frame_guarantee (q : String) (env : Upstream) :
    (event_generator q env).count doneFrame = 1 ∧
    (event_generator q env).getLast? = some doneFrame := by
  refine ⟨?_, event_generator_last q env⟩
  unfold event_generator
  rw [List.count_append]
  have h0 : (List.map serializeFrame (drainQueue (run_sync_generator q env))).count
      doneFrame = 0 := by
    rw [List.count_eq_zero]
    intro hmem
    rcases List.mem_map.mp hmem with ⟨s, hs, hser⟩
    exact serializeFrame_ne_done s (drained_names q env s hs) hser
  rw [h0]
  simp

/-- C8: the bridge delivers to the transport exactly the outward events the
orchestrator produced (plus only the bridge's own error event when the
generator raised, which in this backend happens only with an empty event
list), in exactly the production order: nothing reordered, batched or
dropped, and every delivered event is serialized in queue order before the
terminal frame. -/
theorem ordering_preservation (q : String) (env : Upstream) :
    drainQueue (run_sync_generator q env) =
      (stream_agent_response q env).events ++
        raisedEvents (stream_agent_response q env).raised ∧
    event_generator q env =
      ((stream_agent_response q env).events ++
        raisedEvents (stream_agent_response q env).raised).map serializeFrame
        ++ [doneFrame] := by
  refine ⟨drain_run_sync q env, ?_⟩
  unfold event_generator
  rw [drain_run_sync]

/-- C5: when creation succeeded and the delete-conversation call raises,
the exception is swallowed: the generator does not raise, no
`conversation_deleted` event appears, the outward events are exactly those
of the successful-deletion run minus its trailing `conversation_deleted`
(so no extra `error` event is produced for the deletion), and the terminal
frame is still the last frame. -/
theorem deletion_failure_isolation (q : String) (env : Upstream)
    (c : Conversation) (d : String)
    (hc : env.createResult = .ok c) (hd : env.deleteResult = .error d) :
    (stream_agent_response q env).raised = none ∧
    (∀ ev ∈ (stream_agent_response q env).events, ev.event ≠ "conversation_deleted") ∧
    (stream_agent_response q { env with deleteResult := .ok () }).events =
      (stream_agent_response q env).events ++ [conversationDeletedEvent c] ∧
    (event_generator q env).getLast? = some doneFrame := by
  obtain ⟨cr, sev, serr, dr⟩ := env
  simp only at hc hd
  subst hc; subst hd
  refine ⟨by simp [stream_agent_response], ?_, ?_, event_generator_last q _⟩
  · intro ev hev
    simp only [stream_agent_response] at hev
    rw [List.append_nil] at hev
    rcases List.mem_cons.mp hev with rfl | hev
    · simp [conversationCreatedEvent]
    rcases List.mem_append.mp hev with hs | hs
    · have hmem := consumeStream_names sev ev hs
      have hne : ∀ n ∈ normalizerNames, n ≠ "conversation_deleted" := by decide
      exact hne _ hmem
    · rcases hm : (match (consumeStream sev).2 with
        | some m => some m
        | none => serr) with _ | m
      all_goals rw [hm] at hs
      · simp at hs
      · simp at hs; subst hs; simp [errorEvent]
  · simp [stream_agent_response]

/-- Witness for C5: creation succeeds, the stream yields nothing, deletion
raises. -/
theorem deletion_failure_isolation_witness :
    (stream_agent_response "q" ⟨.ok ⟨"c1"⟩, [], none, .error "delfail"⟩).raised = none ∧
    (∀ ev ∈ (stream_agent_response "q" ⟨.ok ⟨"c1"⟩, [], none, .error "delfail"⟩).events,
      ev.event ≠ "conversation_deleted") ∧
    (stream_agent_response "q"
        { (⟨.ok ⟨"c1"⟩, [], none, .error "delfail"⟩ : Upstream) with
          deleteResult := .ok () }).events =
      (stream_agent_response "q" ⟨.ok ⟨"c1"⟩, [], none, .error "delfail"⟩).events ++
        [conversationDeletedEvent ⟨"c1"⟩] ∧
    (event_generator "q" ⟨.ok ⟨"c1"⟩, [], none, .error "delfail"⟩).getLast? =
      some doneFrame :=
  deletion_failure_isolation "q" ⟨.ok ⟨"c1"⟩, [], none, .error "delfail"⟩
    ⟨"c1"⟩ "delfail" rfl rfl

end SelfCorrecting
